import Mathlib

/-!
Verification development for the noon.com product extraction and enrichment
engine (`src/scraper/noon_parser.py`, `src/scraper/noon_detail_parser.py`,
`src/models/product.py`).

The Python code is shallowly embedded: strings are `String`/`List Char`,
Python floats appearing in the engine (prices, ratings, discounts) are
modelled as `ℚ` (every number the engine manipulates is produced from
decimal text or JSON literals, so rational arithmetic is exact), embedded
JSON payloads are an explicit value tree, and parsed markup is an explicit
element tree with the small CSS-selector fragment the scraper actually
uses.  Fallible Python code (`return None`, caught exceptions) is modelled
with `Option`.  The regular expressions the scraper applies are embedded as
executable leftmost-match scanners specialised to the concrete patterns in
the source, with Python's `re.search`/`re.finditer` semantics (leftmost
start position, greedy digit runs, lazy category groups).
-/

/-! ## Python string primitives -/

/-- Python whitespace for `str.strip` and the regex class `\s`
(the rare `\x0b`/`\x0c` members are not modelled). -/
def isPyWs (c : Char) : Bool :=
  c = ' ' || c = '\t' || c = '\n' || c = '\r'

/-- `\s*` : drop a maximal run of whitespace. -/
def dropWs (cs : List Char) : List Char :=
  cs.dropWhile isPyWs

/-- `\s+` : require at least one whitespace character, then drop the run. -/
def wsPlus (cs : List Char) : Option (List Char) :=
  match cs with
  | [] => none
  | c :: t => if isPyWs c then some (dropWs t) else none

/-- Python `str.strip()`. -/
def pyStripList (cs : List Char) : List Char :=
  ((cs.dropWhile isPyWs).reverse.dropWhile isPyWs).reverse

/-- Python `str.strip()` on `String`. -/
def pyStrip (s : String) : String :=
  (pyStripList s.toList).asString

/-- Python `str.lower()` (ASCII; the scraper's keyword tests are ASCII). -/
def pyLowerList (cs : List Char) : List Char :=
  cs.map Char.toLower

/-- Python `str.lower()` on `String`. -/
def pyLower (s : String) : String :=
  (pyLowerList s.toList).asString

/-- Python `needle in haystack` on character lists. -/
def containsSub (needle : List Char) : List Char → Bool
  | [] => needle.isEmpty
  | c :: t => needle.isPrefixOf (c :: t) || containsSub needle t

/-- Python `needle in haystack` on strings. -/
def strContains (hay needle : String) : Bool :=
  containsSub needle.toList hay.toList

/-- Python `str.startswith(pre)` (via character lists, so that concrete
instances evaluate in the kernel). -/
def pyStartsWith (s pre : String) : Bool :=
  pre.toList.isPrefixOf s.toList

/-- Python `str.isdigit()` (ASCII digits). -/
def pyIsDigit (s : String) : Bool :=
  s ≠ "" && s.toList.all Char.isDigit

/-! ## Digit runs and number parsing -/

/-- Split a maximal run of ASCII digits (`\d+` greedy) off the front. -/
def splitDigits (cs : List Char) : List Char × List Char :=
  (cs.takeWhile Char.isDigit, cs.dropWhile Char.isDigit)

/-- Numeric value of a digit run. -/
def digitsToNat (ds : List Char) : Nat :=
  ds.foldl (fun acc c => acc * 10 + (c.toNat - 48)) 0

/-- Value of `float("d1.d2")` for digit runs `d1`, `d2`
(built with `mkRat` so that concrete instances evaluate in the kernel). -/
def decimalToRat (d1 d2 : List Char) : ℚ :=
  mkRat (digitsToNat d1 * Nat.pow 10 d2.length + digitsToNat d2) (Nat.pow 10 d2.length)

/-- Anchored match of `(\d+\.\d+)` at the head of the input:
a greedy digit run, a literal dot, a greedy digit run. -/
def matchDecimalAt (cs : List Char) : Option ℚ :=
  let (d1, r1) := splitDigits cs
  if d1.isEmpty then none
  else
    match r1 with
    | '.' :: r2 =>
      let (d2, _) := splitDigits r2
      if d2.isEmpty then none else some (decimalToRat d1 d2)
    | _ => none

/-- `re.search(r'(\d+\.\d+)', ...)`: leftmost match, as a value. -/
def searchDecimal : List Char → Option ℚ
  | [] => none
  | c :: t =>
    match matchDecimalAt (c :: t) with
    | some q => some q
    | none => searchDecimal t

/-- Anchored match of `(\d+)` at the head of the input. -/
def matchIntAt (cs : List Char) : Option Nat :=
  let (d, _) := splitDigits cs
  if d.isEmpty then none else some (digitsToNat d)

/-- `re.search(r'(\d+)', ...)`: leftmost digit run, as a value. -/
def searchInt : List Char → Option Nat
  | [] => none
  | c :: t =>
    match matchIntAt (c :: t) with
    | some n => some n
    | none => searchInt t

/-! ## `NoonParser._parse_price`

```python
def _parse_price(self, text):
    if not text: return None
    price_patterns = [r'(\d+\.\d+)', r'(\d+,\d+)', r'(\d+)']
    for pattern in price_patterns:
        match = re.search(pattern, text.replace(',', '.'))
        if match:
            try:
                price = float(match.group(1).replace(',', '.'))
                if 1 <= price <= 10000: return price
            except ValueError: continue
    return None
```

Commas are replaced by dots before matching, so the second pattern
`(\d+,\d+)` can never match and is omitted; an in-range match returns,
an out-of-range match falls through to the next pattern. -/

/-- The comma-to-dot substitution `text.replace(',', '.')`. -/
def commaFix (s : String) : List Char :=
  s.toList.map (fun c => if c = ',' then '.' else c)

/-- `NoonParser._parse_price`. -/
def parsePrice (text : String) : Option ℚ :=
  if text = "" then none
  else
    match searchDecimal (commaFix text) with
    | some q =>
      if 1 ≤ q ∧ q ≤ 10000 then some q
      else
        match searchInt (commaFix text) with
        | some n => if 1 ≤ (n : ℚ) ∧ (n : ℚ) ≤ 10000 then some ((n : ℚ)) else none
        | none => none
    | none =>
      match searchInt (commaFix text) with
      | some n => if 1 ≤ (n : ℚ) ∧ (n : ℚ) ≤ 10000 then some ((n : ℚ)) else none
      | none => none

/-! ## Embedded JSON value trees

`json.loads` output: null, bool, int, float, str, list, dict.  Python's
`json` module distinguishes int and float literals (`num` / `fnum`); dicts
are key-ordered association lists.  Mutual inductives (rather than nesting
through `List`) keep every recursion structural, so concrete instances
evaluate in the kernel. -/

mutual
inductive Json where
  | null : Json
  | bool (b : Bool) : Json
  | num (n : Int) : Json
  | fnum (q : ℚ) : Json
  | str (s : String) : Json
  | arr (items : JsonList) : Json
  | obj (fields : JsonFields) : Json
deriving DecidableEq
inductive JsonList where
  | nil : JsonList
  | cons (j : Json) (rest : JsonList) : JsonList
deriving DecidableEq
inductive JsonFields where
  | nil : JsonFields
  | cons (key : String) (val : Json) (rest : JsonFields) : JsonFields
deriving DecidableEq
end

/-- Python truthiness of a JSON-derived value (`if value:`). -/
def jTruthy : Json → Bool
  | Json.null => false
  | Json.bool b => b
  | Json.num n => n ≠ 0
  | Json.fnum q => q ≠ 0
  | Json.str s => s ≠ ""
  | Json.arr JsonList.nil => false
  | Json.arr _ => true
  | Json.obj JsonFields.nil => false
  | Json.obj _ => true

/-- `data.get(k)`: `none` when the key is missing.  A JSON `null` value is
Python `None`, which `dict.get` also returns for a missing key; callers
treat the two identically, and we keep `some Json.null` distinct only to
mirror the tree. -/
def jGet (k : String) : JsonFields → Option Json
  | JsonFields.nil => none
  | JsonFields.cons key v rest => if key = k then some v else jGet k rest

/-- Python `a or b` on `dict.get` results: the first operand if truthy,
otherwise the second operand's value.  `some Json.null` is normalised to
`none` (Python cannot tell `get` returning a stored `None` from a missing
key). -/
def pyOr (a b : Option Json) : Option Json :=
  match a with
  | some v => if jTruthy v then some v else b
  | none => b

/-- `dict.get` with Python-`None` normalisation, for use under `pyOr`. -/
def jGetN (k : String) (d : JsonFields) : Option Json :=
  match jGet k d with
  | some Json.null => none
  | r => r

/-- The keys of a dict, in order. -/
def jKeys : JsonFields → List String
  | JsonFields.nil => []
  | JsonFields.cons k _ rest => k :: jKeys rest

/-! ## The `Product` pydantic model (`src/models/product.py`)

`product_url`/`image_url` are kept as plain strings (pydantic's `HttpUrl`
well-formedness validation is not modelled); `scraped_at` is a `Nat`
timestamp.  In the source the `scraped_at` default is `datetime.now()`
evaluated once when the class is created, so every Product built without an
explicit value carries that per-process constant; the constant is threaded
through the extraction functions as a `t0` parameter. -/

structure Product where
  title : String
  price : ℚ
  currency : String := "AED"
  product_url : String
  category : Option String := none
  image_url : Option String := none
  sku : Option String := none
  review_count : Option Int := none
  average_rating : Option ℚ := none
  bsr : Option Int := none
  bsr_category : Option String := none
  availability : Option String := none
  discount_percentage : Option ℚ := none
  author : Option String := none
  format : Option String := none
  publication_date : Option String := none
  language : Option String := none
  scraped_at : Nat := 0
deriving DecidableEq

/-- A product with its timestamp replaced (for stating time-invariance). -/
def retime (t : Nat) (p : Product) : Product :=
  { p with scraped_at := t }

/-- A product with its timestamp cleared: equality up to `scraped_at`. -/
def stripTime (p : Product) : Product :=
  { p with scraped_at := 0 }

/-! ## Pydantic v2 field coercion

`Product(**data)` validates each field; a failure raises, which the caller
catches and turns into "no product".  The lax-mode rules modelled: `str`
fields accept `None`/`str` only; `int` fields accept `None`/`int`, an
integral `float`, or a decimal string (bools are rejected); `float` fields
accept `None`/`int`/`float` or a numeric string (exponent forms and
`inf`/`nan` are not modelled).  The outer `none` means a validation
error. -/

/-- Python `int(string)`: optional surrounding whitespace, optional sign,
a digit run (PEP 515 underscores not modelled). -/
def pyIntOfString (s : String) : Option Int :=
  let cs := dropWs s.toList
  let (sign, cs2) : Int × List Char :=
    match cs with
    | '-' :: t => (-1, t)
    | '+' :: t => (1, t)
    | t => (1, t)
  let (d, rest) := splitDigits cs2
  if d.isEmpty then none
  else if (dropWs rest).isEmpty then some (sign * (digitsToNat d : Int))
  else none

/-- Python `float(string)`: optional whitespace and sign, digits with an
optional fractional part, or a bare fractional part. -/
def pyFloatOfString (s : String) : Option ℚ :=
  let cs := dropWs s.toList
  let (sign, cs2) : ℚ × List Char :=
    match cs with
    | '-' :: t => (-1, t)
    | '+' :: t => (1, t)
    | t => (1, t)
  let (d1, rest1) := splitDigits cs2
  match rest1 with
  | '.' :: rest2 =>
    let (d2, rest3) := splitDigits rest2
    if d1.isEmpty && d2.isEmpty then none
    else if (dropWs rest3).isEmpty then some (sign * decimalToRat d1 d2)
    else none
  | _ =>
    if d1.isEmpty then none
    else if (dropWs rest1).isEmpty then some (sign * (digitsToNat d1 : ℚ))
    else none

/-- Validation of an `Optional[str]` field. -/
def pyStrField : Option Json → Option (Option String)
  | none => some none
  | some Json.null => some none
  | some (Json.str s) => some (some s)
  | some _ => none

/-- Validation of an `Optional[int]` field. -/
def pyIntField : Option Json → Option (Option Int)
  | none => some none
  | some Json.null => some none
  | some (Json.num n) => some (some n)
  | some (Json.fnum q) => if q.den = 1 then some (some q.num) else none
  | some (Json.str s) =>
    match pyIntOfString s with
    | some n => some (some n)
    | none => none
  | some _ => none

/-- Validation of an `Optional[float]` field. -/
def pyFloatField : Option Json → Option (Option ℚ)
  | none => some none
  | some Json.null => some none
  | some (Json.num n) => some (some ((n : ℚ)))
  | some (Json.fnum q) => some (some q)
  | some (Json.str s) =>
    match pyFloatOfString s with
    | some q => some (some q)
    | none => none
  | some _ => none

/-- Python's `float(x)` builtin on a JSON value (`TypeError` on
null/list/dict is `none`; `float(True) = 1.0` since `bool` is an `int`). -/
def pyFloatOfJson : Json → Option ℚ
  | Json.num n => some ((n : ℚ))
  | Json.fnum q => some q
  | Json.bool b => some (if b then 1 else 0)
  | Json.str s => pyFloatOfString s
  | _ => none

/-! ## `NoonParser._json_to_product` and helpers

Field alias chains are Python `data.get(a) or data.get(b) or ...`. -/

/-- Left-associated `or` chain over `dict.get` lookups. -/
def jChain (d : JsonFields) (ks : List String) : Option Json :=
  ks.foldl (fun acc k => pyOr acc (jGetN k d)) none

/-- `NoonParser._normalize_url`. -/
def normalizeUrl (url : String) : String :=
  if pyStartsWith url ("http") then url
  else if pyStartsWith url ("/") then "https://www.noon.com" ++ url
  else "https://www.noon.com/" ++ url

/-- The title chain of `_json_to_product`: `data.get('title') or
data.get('name') or data.get('productName') or data.get('displayName') or
""`, followed by `if not title: return None`.  A truthy non-string raises
`AttributeError` at `title.strip()`, caught by the outer handler. -/
def jsonTitle (d : JsonFields) : Option String :=
  match pyOr (jChain d [("title"), ("name"), ("productName"), ("displayName")])
      (some (Json.str "")) with
  | some v =>
    if jTruthy v then
      match v with
      | Json.str s => some s
      | _ => none
    else none
  | none => none

/-- The raw price alias chain of `NoonParser._extract_price`. -/
def jsonPriceRaw (d : JsonFields) : Option Json :=
  jChain d [("price"), ("salePrice"), ("currentPrice"), ("amount")]

/-- `price.get('value', price.get('amount', 0))` for an object-shaped price. -/
def objValueAmount (flds : JsonFields) : Json :=
  match jGet ("value") flds with
  | some x => x
  | none =>
    match jGet ("amount") flds with
    | some y => y
    | none => Json.num 0

/-- `NoonParser._extract_price`: a numeric price passes through unchecked,
a string goes through `_parse_price`, an object through `float(...)`;
a failure (or a missing price) yields no price and hence no product. -/
def extractPriceJ (d : JsonFields) : Option ℚ :=
  match jsonPriceRaw d with
  | none => none
  | some Json.null => none
  | some (Json.num n) => some ((n : ℚ))
  | some (Json.fnum q) => some q
  | some (Json.bool b) => some (if b then 1 else 0)
  | some (Json.str s) => parsePrice s
  | some (Json.obj flds) => pyFloatOfJson (objValueAmount flds)
  | some (Json.arr _) => none

/-- `NoonParser._extract_url`: the alias chain, then `_normalize_url`;
a truthy non-string raises at `.startswith`, caught by the outer handler. -/
def extractUrlJ (d : JsonFields) : Option String :=
  match jChain d [("url"), ("link"), ("productUrl"), ("href"), ("slug")] with
  | some v =>
    if jTruthy v then
      match v with
      | Json.str s => some (normalizeUrl s)
      | _ => none
    else none
  | none => none

/-- The optional fields assembled by `_json_to_product` (validated by
pydantic when `Product(**product_data)` runs). -/
structure OptFields where
  category : Option String
  image_url : Option String
  sku : Option String
  review_count : Option Int
  average_rating : Option ℚ
  bsr : Option Int
  bsr_category : Option String
  availability : Option String
  discount_percentage : Option ℚ
  author : Option String
  format : Option String
  publication_date : Option String
  language : Option String

/-- Alias resolution plus pydantic validation for the optional fields of
`_json_to_product`; `none` is a validation error (caught, no product). -/
def jsonOptFields (d : JsonFields) : Option OptFields := do
  let category ← pyStrField (jChain d [("category"), ("categoryPath")])
  let image_url ← pyStrField (jChain d [("imageUrl"), ("image"), ("thumbnail")])
  let sku ← pyStrField (jChain d [("sku"), ("productId"), ("id")])
  let review_count ← pyIntField (jChain d [("reviewCount"), ("reviews"), ("numReviews")])
  let average_rating ← pyFloatField (jChain d [("rating"), ("averageRating"), ("starRating")])
  let bsr ← pyIntField (jChain d [("bsr"), ("bestSellerRank"), ("rank")])
  let bsr_category ← pyStrField (jChain d [("bsrCategory"), ("category")])
  let availability ← pyStrField (jChain d [("availability"), ("stockStatus"), ("inStock")])
  let discount_percentage ← pyFloatField (jChain d [("discount"), ("discountPercent"), ("salePercent")])
  let author ← pyStrField (jChain d [("author"), ("authorName")])
  let format ← pyStrField (jChain d [("format"), ("bookFormat"), ("edition")])
  let publication_date ← pyStrField (jChain d [("publicationDate"), ("publishDate"), ("releaseDate")])
  let language ← pyStrField (jChain d [("language"), ("lang")])
  pure { category := category, image_url := image_url, sku := sku,
         review_count := review_count, average_rating := average_rating,
         bsr := bsr, bsr_category := bsr_category, availability := availability,
         discount_percentage := discount_percentage, author := author,
         format := format, publication_date := publication_date,
         language := language }

/-- `NoonParser._json_to_product`: title, price and url gates, then the
optional fields; any exception (modelled as a coercion failure) yields no
product.  `t0` is the per-process `scraped_at` default. -/
def jsonToProduct (t0 : Nat) (d : JsonFields) : Option Product :=
  match jsonTitle d with
  | none => none
  | some title =>
    match extractPriceJ d with
    | none => none
    | some price =>
      match extractUrlJ d with
      | none => none
      | some url =>
        match jsonOptFields d with
        | none => none
        | some f =>
          some { title := pyStrip title, price := price, currency := "AED",
                 product_url := url, category := f.category,
                 image_url := f.image_url, sku := f.sku,
                 review_count := f.review_count,
                 average_rating := f.average_rating, bsr := f.bsr,
                 bsr_category := f.bsr_category,
                 availability := f.availability,
                 discount_percentage := f.discount_percentage,
                 author := f.author, format := f.format,
                 publication_date := f.publication_date,
                 language := f.language, scraped_at := t0 }

/-- `NoonParser._looks_like_product`: some key, lowercased, is one of the
indicator names.  (`'productId'` contains an upper-case letter, so that
entry can never equal a lowercased key — kept verbatim from the source.) -/
def looksLikeProduct (d : JsonFields) : Bool :=
  (jKeys d).any (fun k =>
    pyLower k ∈ [("title" : String), ("name"), ("price"), ("url"), ("link"), ("sku"), ("productId")])

/-! ## `NoonParser._find_products_in_json` -/

mutual
/-- Depth-first search of a JSON tree for product-shaped dicts. -/
def findProductsInJson (t0 : Nat) : Json → List Product
  | Json.obj flds =>
    (if looksLikeProduct flds then (jsonToProduct t0 flds).toList else [])
      ++ findProductsInJsonFields t0 flds
  | Json.arr items => findProductsInJsonList t0 items
  | _ => []
/-- The list case of `_find_products_in_json`. -/
def findProductsInJsonList (t0 : Nat) : JsonList → List Product
  | JsonList.nil => []
  | JsonList.cons j rest => findProductsInJson t0 j ++ findProductsInJsonList t0 rest
/-- The nested-values case of `_find_products_in_json`. -/
def findProductsInJsonFields (t0 : Nat) : JsonFields → List Product
  | JsonFields.nil => []
  | JsonFields.cons _ v rest => findProductsInJson t0 v ++ findProductsInJsonFields t0 rest
end

/-! ## Script tags and `NoonParser._extract_from_json`

A `<script>` tag carries its `type` attribute, its text (`script.string`)
and, when that text is valid JSON, the collaborator-decoded value tree
(`json.loads` itself is the out-of-scope boundary the spec assigns to a
collaborator; a decode failure is `payload = none` and is skipped). -/

structure Script where
  typeAttr : Option String
  content : Option String
  payload : Option Json

/-- The `string=re.compile(r'products|items|searchResults', re.I)` filter of
`find_all`. -/
def scriptRegexHit (sc : Script) : Bool :=
  match sc.content with
  | some s =>
    let l := pyLower s
    strContains l ("products") || strContains l ("items") || strContains l ("searchresults")
  | none => false

/-- Products mined from one script tag (`if script.string:` skips empty
text; a decode failure is skipped). -/
def scriptProducts (t0 : Nat) (sc : Script) : List Product :=
  match sc.content, sc.payload with
  | some s, some j => if s ≠ "" then findProductsInJson t0 j else []
  | _, _ => []

/-- `NoonParser._extract_from_json`: the `application/json` scripts, then
the regex-selected scripts (a tag matching both filters is processed
twice, as in the source). -/
def extractFromJson (t0 : Nat) (scripts : List Script) : List Product :=
  ((scripts.filter (fun sc => sc.typeAttr = some ("application/json")))
      ++ scripts.filter scriptRegexHit).foldr
    (fun sc acc => scriptProducts t0 sc ++ acc) []

/-! ## `NoonParser._remove_duplicates` -/

/-- The loop of `_remove_duplicates`, with the `seen_urls` set explicit. -/
def removeDuplicatesAux (seen : List String) : List Product → List Product
  | [] => []
  | p :: rest =>
    if p.product_url ∈ seen then removeDuplicatesAux seen rest
    else p :: removeDuplicatesAux (p.product_url :: seen) rest

/-- `NoonParser._remove_duplicates`: keep the first product for each URL. -/
def removeDuplicates (ps : List Product) : List Product :=
  removeDuplicatesAux [] ps

/-! ## Parsed markup trees and the CSS-selector fragment

The scraper only uses tag selectors, `[attr*="v"]` substring selectors,
`[attr]` presence selectors, `tag[attr*="v"]`, unions (`a, b`) and one
level of descendant combinator (`anc tgt`); selection is in document order
over strict descendants, as `element.select` behaves.  `class` values are
matched against the serialised attribute string. -/

mutual
inductive Node where
  | elem (tag : String) (attrs : List (String × String)) (children : NodeList) : Node
  | text (s : String) : Node
deriving DecidableEq
inductive NodeList where
  | nil : NodeList
  | cons (n : Node) (rest : NodeList) : NodeList
deriving DecidableEq
end

/-- Attribute lookup, `element.get(a)`. -/
def attrOf (n : Node) (a : String) : Option String :=
  match n with
  | Node.elem _ attrs _ => (attrs.find? (fun kv => kv.1 = a)).map (fun kv => kv.2)
  | Node.text _ => none

/-- `element.name == t` for tags. -/
def nodeTagIs (n : Node) (t : String) : Bool :=
  match n with
  | Node.elem tg _ _ => tg = t
  | Node.text _ => false

/-- Simple selectors. -/
inductive Sel where
  | tagIs (t : String)
  | attrContains (a v : String)
  | attrEq (a v : String)
  | hasAttr (a : String)
  | tagAttrContains (t a v : String)
  | tagHasAttr (t a : String)
deriving DecidableEq

/-- One simple selector against one node. -/
def matchesSel (s : Sel) (n : Node) : Bool :=
  match s with
  | Sel.tagIs t => nodeTagIs n t
  | Sel.attrContains a v =>
    match attrOf n a with
    | some w => strContains w v
    | none => false
  | Sel.attrEq a v => attrOf n a = some v
  | Sel.hasAttr a => (attrOf n a).isSome
  | Sel.tagAttrContains t a v =>
    nodeTagIs n t &&
      (match attrOf n a with
       | some w => strContains w v
       | none => false)
  | Sel.tagHasAttr t a => nodeTagIs n t && (attrOf n a).isSome

/-- A union (`a, b`) of simple selectors against one node. -/
def matchesAny (ss : List Sel) (n : Node) : Bool :=
  ss.any (fun s => matchesSel s n)

mutual
/-- Matches of a selector union among strict descendants, document order. -/
def selNode (ss : List Sel) : Node → List Node
  | Node.text _ => []
  | Node.elem _ _ cs => selList ss cs
/-- The sibling-list case of `selNode`. -/
def selList (ss : List Sel) : NodeList → List Node
  | NodeList.nil => []
  | NodeList.cons n rest =>
    (if matchesAny ss n then [n] else []) ++ selNode ss n ++ selList ss rest
end

mutual
/-- Descendant-combinator matches (`anc tgt`): targets below an
ancestor match, inside the search scope, in document order. -/
def selDescNode (anc tgt : Sel) (under : Bool) : Node → List Node
  | Node.text _ => []
  | Node.elem t a cs => selDescList anc tgt (under || matchesSel anc (Node.elem t a cs)) cs
/-- The sibling-list case of `selDescNode`. -/
def selDescList (anc tgt : Sel) (under : Bool) : NodeList → List Node
  | NodeList.nil => []
  | NodeList.cons n rest =>
    (if under && matchesSel tgt n then [n] else [])
      ++ selDescNode anc tgt under n ++ selDescList anc tgt under rest
end

/-- A CSS selector as the scraper uses them. -/
inductive CSel where
  | simple (ss : List Sel)
  | desc (anc tgt : Sel)
deriving DecidableEq

/-- `element.select(selector)`. -/
def selC (c : CSel) (n : Node) : List Node :=
  match c with
  | CSel.simple ss => selNode ss n
  | CSel.desc a t => selDescNode a t false n

/-- `element.select_one(selector)`. -/
def selOneC (c : CSel) (n : Node) : Option Node :=
  (selC c n).head?

mutual
/-- All text-node strings below a node, in document order
(BeautifulSoup `.strings`). -/
def nodeStrings : Node → List String
  | Node.text s => [s]
  | Node.elem _ _ cs => listStrings cs
/-- The sibling-list case of `nodeStrings`. -/
def listStrings : NodeList → List String
  | NodeList.nil => []
  | NodeList.cons n rest => nodeStrings n ++ listStrings rest
end

/-- `element.get_text()`: raw concatenation. -/
def getTextRaw (n : Node) : String :=
  String.join (nodeStrings n)

/-- `element.get_text(strip=True)`: each string stripped, joined. -/
def getTextStrip (n : Node) : String :=
  String.join ((nodeStrings n).map pyStrip)

/-- `element.get_text(strip=True, separator=' ')`: stripped, non-empty
strings joined by single spaces. -/
def getTextStripSep (n : Node) : String :=
  String.intercalate (" ") (((nodeStrings n).map pyStrip).filter (fun s => s ≠ ""))

/-! ## Text scanners for the listing-card fields -/

/-- The keyword alternation `(?:Off|off|discount|Discount|sale|Sale)`. -/
def keywordAfterPct (cs : List Char) : Bool :=
  (("Off").toList).isPrefixOf cs || (("off").toList).isPrefixOf cs
    || (("discount").toList).isPrefixOf cs || (("Discount").toList).isPrefixOf cs
    || (("sale").toList).isPrefixOf cs || (("Sale").toList).isPrefixOf cs

/-- Anchored match of `(\d+)%\s*(?:Off|off|discount|Discount|sale|Sale)`:
the captured integer. -/
def matchDiscountAt (cs : List Char) : Option Nat :=
  let (d, r1) := splitDigits cs
  if d.isEmpty then none
  else
    match r1 with
    | '%' :: r2 => if keywordAfterPct (dropWs r2) then some (digitsToNat d) else none
    | _ => none

/-- `re.search` for the discount pattern: leftmost match with its start
index (`match.start()`), which the cashback window check needs. -/
def searchDiscount : List Char → Nat → Option (Nat × Nat)
  | [], _ => none
  | c :: t, i =>
    match matchDiscountAt (c :: t) with
    | some n => some (i, n)
    | none => searchDiscount t (i + 1)

/-- Anchored match of `(\d+)\s*reviews?` (case-insensitive). -/
def matchReviewAt (cs : List Char) : Option Nat :=
  let (d, r1) := splitDigits cs
  if d.isEmpty then none
  else if (("review").toList).isPrefixOf (pyLowerList (dropWs r1)) then
    some (digitsToNat d)
  else none

/-- `re.search(r'(\d+)\s*reviews?', ..., re.I)`. -/
def searchReview : List Char → Option Nat
  | [] => none
  | c :: t =>
    match matchReviewAt (c :: t) with
    | some n => some n
    | none => searchReview t

/-- Anchored match of `(\d+\.?\d*)`: greedy digits, optional dot, greedy
digits (possibly none). -/
def matchNumAt (cs : List Char) : Option ℚ :=
  let (d1, r1) := splitDigits cs
  if d1.isEmpty then none
  else
    match r1 with
    | '.' :: r2 =>
      let (d2, _) := splitDigits r2
      some (decimalToRat d1 d2)
    | _ => some ((digitsToNat d1 : ℚ))

/-- `re.search(r'(\d+\.?\d*)', ...)`. -/
def searchNum : List Char → Option ℚ
  | [] => none
  | c :: t =>
    match matchNumAt (c :: t) with
    | some q => some q
    | none => searchNum t

/-! ## `NoonParser` per-field HTML extraction -/

/-- Python `a or b` on optional attribute strings (`""` is falsy). -/
def pyOrStr (a b : Option String) : Option String :=
  match a with
  | some s => if s ≠ "" then some s else b
  | none => b

/-- The title selectors of `_extract_product_info`. -/
def titleSelectors : List CSel :=
  [CSel.simple [Sel.attrContains ("class") ("title")],
   CSel.simple [Sel.attrContains ("class") ("name")],
   CSel.simple [Sel.tagIs ("h2")],
   CSel.simple [Sel.tagIs ("h3")],
   CSel.simple [Sel.tagIs ("h4")],
   CSel.simple [Sel.attrContains ("data-qa") ("title")],
   CSel.simple [Sel.attrContains ("data-qa") ("name")]]

/-- `NoonParser._find_text_precise`: first selector whose stripped text has
a reasonable length (5 to 200). -/
def findTextPrecise (e : Node) : List CSel → Option String
  | [] => none
  | c :: rest =>
    match selOneC c e with
    | some found =>
      let t := getTextStripSep found
      if t ≠ "" ∧ 5 ≤ t.length ∧ t.length ≤ 200 then some t
      else findTextPrecise e rest
    | none => findTextPrecise e rest

/-- The price selectors of `_find_price`. -/
def priceSelectors : List CSel :=
  [CSel.simple [Sel.attrContains ("class") ("price")],
   CSel.simple [Sel.attrContains ("class") ("Price")],
   CSel.simple [Sel.attrContains ("data-qa") ("price")],
   CSel.simple [Sel.hasAttr ("data-price")]]

/-- The selector loop of `_find_price` (an unparseable element falls
through to the next selector; `_parse_price` never returns `0`, so Python's
`if price:` is "is some"). -/
def findPriceLoop (e : Node) : List CSel → Option ℚ
  | [] => none
  | c :: rest =>
    match selOneC c e with
    | some pe =>
      match parsePrice (getTextStrip pe) with
      | some price => some price
      | none => findPriceLoop e rest
    | none => findPriceLoop e rest

/-- `NoonParser._find_price`: the selector loop, then the element's raw
text. -/
def findPriceE (e : Node) : Option ℚ :=
  match findPriceLoop e priceSelectors with
  | some p => some p
  | none => parsePrice (getTextRaw e)

/-- `'noon.com' in href or href.startswith('/')`. -/
def hrefOk (href : String) : Bool :=
  strContains href ("noon.com") || pyStartsWith href ("/")

/-- `NoonParser._find_url`: the element itself as a link, then the first
descendant link, then data attributes. -/
def findUrl (e : Node) : Option String :=
  let step1 : Option String :=
    if nodeTagIs e ("a") then
      match attrOf e ("href") with
      | some href =>
        if href ≠ "" then (if hrefOk href then some (normalizeUrl href) else none)
        else none
      | none => none
    else none
  match step1 with
  | some u => some u
  | none =>
    let step2 : Option String :=
      match (selNode [Sel.tagHasAttr ("a") ("href")] e).head? with
      | some link =>
        match attrOf link ("href") with
        | some href => if hrefOk href then some (normalizeUrl href) else none
        | none => none
      | none => none
    match step2 with
    | some u => some u
    | none =>
      match pyOrStr (pyOrStr (attrOf e ("data-url")) (attrOf e ("data-href")))
          (attrOf e ("data-link")) with
      | some url => if url ≠ "" then some (normalizeUrl url) else none
      | none => none

/-- The category selectors of `_find_category`. -/
def categorySelectors : List CSel :=
  [CSel.desc (Sel.attrContains ("class") ("breadcrumb")) (Sel.tagIs ("a")),
   CSel.desc (Sel.attrContains ("class") ("category")) (Sel.tagIs ("a")),
   CSel.desc (Sel.attrContains ("class") ("Category")) (Sel.tagIs ("a")),
   CSel.desc (Sel.tagAttrContains ("nav") ("class") ("breadcrumb")) (Sel.tagIs ("a")),
   CSel.desc (Sel.tagAttrContains ("ol") ("class") ("breadcrumb")) (Sel.tagIs ("a")),
   CSel.simple [Sel.attrContains ("data-qa") ("category")],
   CSel.simple [Sel.hasAttr ("data-category")]]

/-- The selector loop of `_find_category`. -/
def findCategoryLoop (e : Node) : List CSel → Option String
  | [] => none
  | c :: rest =>
    match selOneC c e with
    | some found =>
      let t := getTextStrip found
      if t ≠ "" ∧ 3 ≤ t.length ∧ t.length ≤ 100 ∧ ¬ pyIsDigit t then some t
      else findCategoryLoop e rest
    | none => findCategoryLoop e rest

/-- `NoonParser._find_category`: selectors, then data attributes, no
full-text fallback. -/
def findCategory (e : Node) : Option String :=
  match findCategoryLoop e categorySelectors with
  | some t => some t
  | none =>
    match pyOrStr (attrOf e ("data-category")) (attrOf e ("data-cat")) with
    | some c => if c ≠ "" then some c else none
    | none => none

/-- `NoonParser._find_image`: the first `img` descendant's source chain
(the chain's raw value is stored even when falsy, as in the source). -/
def findImage (e : Node) : Option String :=
  match (selNode [Sel.tagIs ("img")] e).head? with
  | some img =>
    pyOrStr (pyOrStr (attrOf img ("src")) (attrOf img ("data-src")))
      (attrOf img ("data-lazy-src"))
  | none => none

/-- `NoonParser._find_review_count`. -/
def findReviewCount (e : Node) : Option Int :=
  (searchReview (getTextRaw e).toList).map (fun n => (n : Int))

/-- The element loop of `_find_rating` (out-of-range numbers fall through
to the next starred element). -/
def findRatingLoop : List Node → Option ℚ
  | [] => none
  | se :: rest =>
    match searchNum (getTextRaw se).toList with
    | some r => if 0 ≤ r ∧ r ≤ 5 then some r else findRatingLoop rest
    | none => findRatingLoop rest

/-- `NoonParser._find_rating` over
`element.select('[class*="star"], [class*="rating"]')`. -/
def findRating (e : Node) : Option ℚ :=
  findRatingLoop
    (selNode [Sel.attrContains ("class") ("star"), Sel.attrContains ("class") ("rating")] e)

/-- `NoonParser._find_availability` ("out of stock" is tested before
"available", which is a substring of "unavailable"). -/
def findAvailability (e : Node) : Option String :=
  let t := pyLower (getTextRaw e)
  if strContains t ("out of stock") || strContains t ("unavailable") then some ("Out of Stock")
  else if strContains t ("in stock") || strContains t ("available") then some ("In Stock")
  else if strContains t ("low stock") then some ("Low Stock")
  else none

/-- The discount selectors of `_find_discount_improved`. -/
def discountSelectors : List CSel :=
  [CSel.simple [Sel.attrContains ("class") ("Discount")],
   CSel.simple [Sel.attrContains ("class") ("discount")],
   CSel.simple [Sel.attrContains ("class") ("sale")],
   CSel.simple [Sel.attrContains ("class") ("Sale")],
   CSel.simple [Sel.attrContains ("class") ("off")],
   CSel.simple [Sel.attrContains ("class") ("Off")],
   CSel.simple [Sel.attrContains ("class") ("percent")]]

/-- The selector loop of `_find_discount_improved`: an element whose whole
text mentions cashback is skipped; otherwise the discount pattern is
matched on its stripped text. -/
def findDiscountLoop (e : Node) : List CSel → Option ℚ
  | [] => none
  | c :: rest =>
    match selOneC c e with
    | some del =>
      let text := getTextStrip del
      if strContains (pyLower text) ("cashback") then findDiscountLoop e rest
      else
        match searchDiscount text.toList 0 with
        | some (_, n) => if n ≤ 100 then some ((n : Nat) : ℚ) else findDiscountLoop e rest
        | none => findDiscountLoop e rest
    | none => findDiscountLoop e rest

/-- The direct-text path of `_find_discount_improved` (lines 298-308): the
match is rejected when "cashback" occurs in
`text.lower()[:match.start() + 50]` — the text from its beginning through
50 characters past the match start. -/
def findDiscountText (text : String) : Option ℚ :=
  match searchDiscount text.toList 0 with
  | some (start, n) =>
    if containsSub (("cashback").toList) ((pyLowerList text.toList).take (start + 50)) then none
    else if n ≤ 100 then some ((n : Nat) : ℚ)
    else none
  | none => none

/-- `NoonParser._find_discount_improved`. -/
def findDiscountImproved (e : Node) : Option ℚ :=
  match findDiscountLoop e discountSelectors with
  | some q => some q
  | none => findDiscountText (getTextRaw e)

/-- The `sku` attribute chain of `_extract_product_info`. -/
def skuOf (e : Node) : Option String :=
  pyOrStr (pyOrStr (attrOf e ("data-sku")) (attrOf e ("data-product-id"))) (attrOf e ("id"))

/-- `NoonParser._extract_product_info`: title, price and url gates, then
the optional fields. -/
def extractProductInfo (t0 : Nat) (e : Node) : Option Product :=
  match findTextPrecise e titleSelectors with
  | none => none
  | some title =>
    match findPriceE e with
    | none => none
    | some price =>
      match findUrl e with
      | none => none
      | some url =>
        some { title := pyStrip title, price := price, currency := "AED",
               product_url := url, category := findCategory e,
               image_url := findImage e, sku := skuOf e,
               review_count := findReviewCount e,
               average_rating := findRating e, bsr := none,
               bsr_category := none, availability := findAvailability e,
               discount_percentage := findDiscountImproved e, author := none,
               format := none, publication_date := none, language := none,
               scraped_at := t0 }

/-- The product-card selectors of `_extract_from_html`. -/
def cardSelectors : List CSel :=
  [CSel.simple [Sel.attrContains ("data-qa") ("product")],
   CSel.simple [Sel.attrContains ("class") ("Product")],
   CSel.simple [Sel.attrContains ("class") ("product")],
   CSel.simple [Sel.tagAttrContains ("a") ("href") ("/uae-en/")],
   CSel.simple [Sel.hasAttr ("data-product-id")],
   CSel.simple [Sel.hasAttr ("data-sku")]]

/-- The `break`-on-first-hit selector scan of `_extract_from_html`. -/
def firstNonemptySel (root : Node) : List CSel → List Node
  | [] => []
  | c :: rest =>
    match selC c root with
    | [] => firstNonemptySel root rest
    | es => es

/-- `NoonParser._extract_from_html`. -/
def extractFromHtml (t0 : Nat) (root : Node) : List Product :=
  (firstNonemptySel root cardSelectors).foldr
    (fun e acc =>
      match extractProductInfo t0 e with
      | some p => p :: acc
      | none => acc) []

/-- A parsed search-results document: the element tree (`root` is the
synthetic `[document]` container, so selecting on it covers every element)
plus its script tags in document order. -/
structure Document where
  root : Node
  scripts : List Script

/-- `NoonParser.parse_search_results`: JSON mining, then HTML cards, then
URL deduplication. -/
def parseSearchResults (t0 : Nat) (doc : Document) : List Product :=
  removeDuplicates (extractFromJson t0 doc.scripts ++ extractFromHtml t0 doc.root)

/-! ## `NoonDetailParser._find_bsr`

The five BSR patterns:
```
r'#(\d+)\s+in\s+(.+?)(?:\s*\(|$)'
r'Best Seller.*?#(\d+)\s+in\s+(.+?)(?:\s*\(|$)'
r'Rank.*?#(\d+)\s+in\s+(.+?)(?:\s*\(|$)'
r'#(\d+)\s+in\s+([A-Z][^#]+?)(?:\s*\(|$)'
r'(\d+)\s+in\s+(.+?)(?:\s*\(|$)'
```
compiled with `re.I` (so `[A-Z]` also matches lower case).  `.` never
matches a newline; `$` matches at the end of the input or just before a
trailing newline; the lazy groups stop at the first position where the
terminator matches; searching tries start positions left to right. -/

/-- The terminator alternative `\s*\(`: the remainder after the consumed
parenthesis, or nothing. -/
def parenCheck (cs : List Char) : Option (List Char) :=
  match dropWs cs with
  | '(' :: rest => some rest
  | _ => none

/-- The terminator alternative `$` (end, or just before a trailing
newline). -/
def endDollar (cs : List Char) : Bool :=
  cs.isEmpty || cs = [('\n')]

/-- The lazy group `(.+?)` followed by `(?:\s*\(|$)`: shortest non-empty
newline-free run after which a terminator matches.  Returns the raw group
and the remainder after the match end. -/
def lazyCatAux (acc : List Char) : List Char → Option (List Char × List Char)
  | [] => none
  | c :: t =>
    if c = '\n' then none
    else
      let acc2 := acc ++ [c]
      match parenCheck t with
      | some rest => some (acc2, rest)
      | none => if endDollar t then some (acc2, t) else lazyCatAux acc2 t

/-- `(.+?)(?:\s*\(|$)` from the start of the input. -/
def lazyCat (cs : List Char) : Option (List Char × List Char) :=
  lazyCatAux [] cs

/-- `([A-Z][^#]+?)(?:\s*\(|$)` under `re.I`: a letter, then at least one
further non-`#` character, lazily. -/
def lazyCatP4Aux (acc : List Char) : List Char → Option (List Char × List Char)
  | [] => none
  | c :: t =>
    if c = '#' then none
    else
      let acc2 := acc ++ [c]
      match parenCheck t with
      | some rest => some (acc2, rest)
      | none => if endDollar t then some (acc2, t) else lazyCatP4Aux acc2 t

/-- The alternative category group of the fourth pattern. -/
def lazyCatP4 : List Char → Option (List Char × List Char)
  | [] => none
  | c :: t => if c.isAlpha then lazyCatP4Aux [c] t else none

/-- The shared tail `(\d+)\s+in\s+CAT` anchored at the input head, with
`CAT` the supplied category matcher; yields the rank, the raw category
group, and the remainder after the match end. -/
def rankInTail (catM : List Char → Option (List Char × List Char)) (cs : List Char) :
    Option (Int × String × List Char) :=
  let (d, r1) := splitDigits cs
  if d.isEmpty then none
  else
    match wsPlus r1 with
    | none => none
    | some r2 =>
      match r2 with
      | c1 :: c2 :: r3 =>
        if c1.toLower = 'i' && c2.toLower = 'n' then
          match wsPlus r3 with
          | none => none
          | some r4 =>
            match catM r4 with
            | some (cat, rest) => some ((digitsToNat d : Int), cat.asString, rest)
            | none => none
        else none
      | _ => none

/-- `re.search` for pattern 1 (`#` then the shared tail). -/
def searchPat1 : List Char → Option (Int × String × List Char)
  | [] => none
  | c :: t =>
    if c = '#' then
      match rankInTail lazyCat t with
      | some r => some r
      | none => searchPat1 t
    else searchPat1 t

/-- `.*?#` then the shared tail: the lazy any-run cannot cross a newline;
a `#` whose tail fails is absorbed and the scan continues. -/
def dotLazyHash : List Char → Option (Int × String × List Char)
  | [] => none
  | c :: t =>
    if c = '\n' then none
    else if c = '#' then
      match rankInTail lazyCat t with
      | some r => some r
      | none => dotLazyHash t
    else dotLazyHash t

/-- `re.search` for patterns 2 and 3: a literal lead word
(case-insensitive), `.*?#`, then the shared tail. -/
def searchLeadWord (word : List Char) : List Char → Option (Int × String × List Char)
  | [] => none
  | c :: t =>
    if word.isPrefixOf (pyLowerList (c :: t)) then
      match dotLazyHash ((c :: t).drop word.length) with
      | some r => some r
      | none => searchLeadWord word t
    else searchLeadWord word t

/-- `re.search` for pattern 4 (`#`, tail with the `[A-Z][^#]+?` group). -/
def searchPat4 : List Char → Option (Int × String × List Char)
  | [] => none
  | c :: t =>
    if c = '#' then
      match rankInTail lazyCatP4 t with
      | some r => some r
      | none => searchPat4 t
    else searchPat4 t

/-- `re.search` for pattern 5 (the shared tail with no `#`). -/
def searchPat5 : List Char → Option (Int × String × List Char)
  | [] => none
  | c :: t =>
    match rankInTail lazyCat (c :: t) with
    | some r => some r
    | none => searchPat5 t

/-- `re.finditer`: repeated leftmost search, resuming after each match
end.  Every genuine match consumes at least one character, so fuel equal
to the input length suffices; a (never occurring) zero-width step advances
by one as `finditer` does. -/
def findAllPat (pat : List Char → Option (Int × String × List Char)) :
    Nat → List Char → List (Int × String)
  | 0, _ => []
  | Nat.succ fuel, cs =>
    match pat cs with
    | none => []
    | some (r, c, rest) =>
      (r, c) :: findAllPat pat fuel (if rest.length < cs.length then rest else cs.drop 1)

/-- All matches of one pattern in a text. -/
def findAllP (pat : List Char → Option (Int × String × List Char)) (cs : List Char) :
    List (Int × String) :=
  findAllPat pat (cs.length + 1) cs

/-- The five searchers in the order of `bsr_patterns`. -/
def bsrSearchers : List (List Char → Option (Int × String × List Char)) :=
  [searchPat1, searchLeadWord (("best seller").toList),
   searchLeadWord (("rank").toList), searchPat4, searchPat5]

/-- Strategy 1 validation: rank in `[1, 10000000]`, stripped category
longer than 2 characters (no stopword test in this strategy). -/
def bsrOk1 (m : Int × String) : Bool :=
  decide (1 ≤ m.1) && decide (m.1 ≤ 10000000) && decide (2 < m.2.length)

/-- The stopword list of strategy 2. -/
def bsrStopwords : List String :=
  [("the"), ("a"), ("an"), ("in"), ("of"), ("and")]

/-- Strategy 2 validation: strategy 1's checks plus the stopword test. -/
def bsrOk2 (m : Int × String) : Bool :=
  bsrOk1 m && !(bsrStopwords.contains (pyLower m.2))

/-- The per-element pattern loop of strategy 1 (first match per pattern;
a match failing validation falls through to the next pattern). -/
def strat1Text (cs : List Char) :
    List (List Char → Option (Int × String × List Char)) → Option (Int × String)
  | [] => none
  | p :: ps =>
    match p cs with
    | some (r, c, _) =>
      if bsrOk1 (r, pyStrip c) then some (r, pyStrip c) else strat1Text cs ps
    | none => strat1Text cs ps

/-- The element loop of strategy 1. -/
def strat1Elems : List Node → Option (Int × String)
  | [] => none
  | e :: rest =>
    match strat1Text (getTextRaw e).toList bsrSearchers with
    | some m => some m
    | none => strat1Elems rest

/-- The rank-labelled-element selectors of `_find_bsr`. -/
def bsrSelectors : List CSel :=
  [CSel.simple [Sel.attrContains ("class") ("rank")],
   CSel.simple [Sel.attrContains ("class") ("Rank")],
   CSel.simple [Sel.attrContains ("class") ("bestseller")],
   CSel.simple [Sel.attrContains ("class") ("BestSeller")],
   CSel.simple [Sel.attrContains ("class") ("BSR")],
   CSel.simple [Sel.attrContains ("data-qa") ("rank")],
   CSel.simple [Sel.attrContains ("data-qa") ("bestseller")],
   CSel.simple [Sel.attrEq ("itemprop") ("position")]]

/-- The selector loop of strategy 1. -/
def strat1Sels (root : Node) : List CSel → Option (Int × String)
  | [] => none
  | c :: rest =>
    match strat1Elems (selC c root) with
    | some m => some m
    | none => strat1Sels root rest

/-- The whole-page-text loop of strategy 2: for each pattern in order, the
first of its matches that passes validation. -/
def strat2Pats (cs : List Char) :
    List (List Char → Option (Int × String × List Char)) → Option (Int × String)
  | [] => none
  | p :: ps =>
    match ((findAllP p cs).map (fun m => (m.1, pyStrip m.2))).find? bsrOk2 with
    | some m => some m
    | none => strat2Pats cs ps

/-! ## `NoonDetailParser._find_bsr_in_json` (strategy 3) -/

/-- Python `str.upper()` (ASCII). -/
def pyUpper (s : String) : String :=
  (s.toList.map Char.toUpper).asString

/-- `str(data.keys())`: `dict_keys(['k1', 'k2'])`. -/
def keysStr (d : JsonFields) : String :=
  "dict_keys([" ++ String.intercalate (", ") ((jKeys d).map (fun k => "'" ++ k ++ "'")) ++ "])"

/-- `int(rank_value) if isinstance(rank_value, (int, str)) else None`: a
JSON int passes through, a bool is an `int` in Python (only a truthy one
reaches this point), a string goes through `int(...)`, floats and
containers give `None`. -/
def jsonRankOf : Json → Option Int
  | Json.num n => some n
  | Json.bool b => some (if b then 1 else 0)
  | Json.str s => pyIntOfString s
  | _ => none

/-- `(data.get('category') or data.get('bsrCategory') or
data.get('categoryPath')) or 'Unknown'`. -/
def bsrCategoryOf (d : JsonFields) : Json :=
  match jChain d [("category"), ("bsrCategory"), ("categoryPath")] with
  | some v => if jTruthy v then v else Json.str "Unknown"
  | none => Json.str "Unknown"

/-- The BSR key names searched by `_find_bsr_in_json`. -/
def bsrKeys : List String :=
  [("bsr"), ("bestSellerRank"), ("rank"), ("salesRank"), ("bestsellerRank")]

/-- The key loop of `_find_bsr_in_json`: the guard is a *substring* test of
the lowercased key against the lowercased `str(data.keys())`
serialisation, exactly as the source writes it. -/
def bsrKeysLoop (d : JsonFields) : List String → Option (Int × Json)
  | [] => none
  | k :: ks =>
    if strContains (pyLower (keysStr d)) (pyLower k) then
      match pyOr (pyOr (jGetN k d) (jGetN (pyLower k) d)) (jGetN (pyUpper k) d) with
      | some v =>
        if jTruthy v then
          match jsonRankOf v with
          | some rank =>
            if 1 ≤ rank ∧ rank ≤ 10000000 then some (rank, bsrCategoryOf d)
            else bsrKeysLoop d ks
          | none => bsrKeysLoop d ks
        else bsrKeysLoop d ks
      | none => bsrKeysLoop d ks
    else bsrKeysLoop d ks

mutual
/-- `NoonDetailParser._find_bsr_in_json`: the key loop, then depth-first
recursion into values. -/
def findBsrInJson : Json → Option (Int × Json)
  | Json.obj flds =>
    (match bsrKeysLoop flds bsrKeys with
     | some m => some m
     | none => findBsrInJsonFields flds)
  | Json.arr items => findBsrInJsonList items
  | _ => none
/-- The nested-values case of `_find_bsr_in_json`. -/
def findBsrInJsonFields : JsonFields → Option (Int × Json)
  | JsonFields.nil => none
  | JsonFields.cons _ v rest =>
    match findBsrInJson v with
    | some m => some m
    | none => findBsrInJsonFields rest
/-- The list case of `_find_bsr_in_json`. -/
def findBsrInJsonList : JsonList → Option (Int × Json)
  | JsonList.nil => none
  | JsonList.cons j rest =>
    match findBsrInJson j with
    | some m => some m
    | none => findBsrInJsonList rest
end

/-- Strategy 3 of `_find_bsr`: `application/json` scripts in order. -/
def strat3 : List Script → Option (Int × Json)
  | [] => none
  | sc :: rest =>
    if sc.typeAttr = some ("application/json") then
      match sc.content, sc.payload with
      | some s, some j =>
        if s ≠ "" then
          (match findBsrInJson j with
           | some m => some m
           | none => strat3 rest)
        else strat3 rest
      | _, _ => strat3 rest
    else strat3 rest

/-- `NoonDetailParser._find_bsr`: rank-labelled elements, then the whole
page text, then embedded JSON.  Strategies 1 and 2 produce a string
category; strategy 3 can return any JSON value as the category. -/
def findBsr (doc : Document) : Option (Int × Json) :=
  match strat1Sels doc.root bsrSelectors with
  | some m => some (m.1, Json.str m.2)
  | none =>
    match strat2Pats (getTextRaw doc.root).toList bsrSearchers with
    | some m => some (m.1, Json.str m.2)
    | none => strat3 doc.scripts

/-! ## `NoonDetailParser._enrich_product`

`detail_data` carries exactly the keys the detail extractors can set, with
well-typed values (as the HTML extractor produces; a key that is absent,
or present with Python `None`, is `none` — the merger's
`value is not None` guard treats the two identically).  The merged record
is a fresh `Product`; the baseline value is read, never written. -/

structure DetailData where
  title : Option String := none
  price : Option ℚ := none
  average_rating : Option ℚ := none
  review_count : Option Int := none
  author : Option String := none
  category : Option String := none
  format : Option String := none
  publication_date : Option String := none
  language : Option String := none
  bsr : Option Int := none
  bsr_category : Option String := none
  availability : Option String := none
deriving DecidableEq

/-- The category/label terms the title guard rejects. -/
def titleLabels : List String :=
  [("pre-school"), ("early learning"), ("books"), ("fiction"), ("non-fiction")]

/-- The title guard of `_enrich_product`: an incoming title under 15
characters, or equal (case-insensitively) to a known label, or containing
an ampersand while under 30 characters, keeps the baseline. -/
def titleKeepsBaseline (v : String) : Bool :=
  decide (v.length < 15) || titleLabels.contains (pyLower v)
    || (strContains v ("&") && decide (v.length < 30))

/-- Overwrite an optional string field when the incoming value is present
and non-empty. -/
def updStr (base inc : Option String) : Option String :=
  match inc with
  | some v => if v ≠ "" then some v else base
  | none => base

/-- Overwrite an optional integer field when the incoming value is present
(numbers are never equal to `""`, so Python's emptiness test passes). -/
def updInt (base inc : Option Int) : Option Int :=
  match inc with
  | some v => some v
  | none => base

/-- Overwrite an optional rational field when the incoming value is
present. -/
def updRat (base inc : Option ℚ) : Option ℚ :=
  match inc with
  | some v => some v
  | none => base

/-- `NoonDetailParser._enrich_product`: present, non-empty incoming values
overwrite; the title additionally passes the guard; `scraped_at` is the
merge time; every key `detail_data` never carries keeps the baseline
value. -/
def enrichProduct (p : Product) (d : DetailData) (now : Nat) : Product :=
  { title :=
      (match d.title with
       | some v =>
         if v ≠ "" then (if titleKeepsBaseline v then p.title else v) else p.title
       | none => p.title),
    price := (match d.price with | some v => v | none => p.price),
    currency := p.currency,
    product_url := p.product_url,
    category := updStr p.category d.category,
    image_url := p.image_url,
    sku := p.sku,
    review_count := updInt p.review_count d.review_count,
    average_rating := updRat p.average_rating d.average_rating,
    bsr := updInt p.bsr d.bsr,
    bsr_category := updStr p.bsr_category d.bsr_category,
    availability := updStr p.availability d.availability,
    discount_percentage := p.discount_percentage,
    author := updStr p.author d.author,
    format := updStr p.format d.format,
    publication_date := updStr p.publication_date d.publication_date,
    language := updStr p.language d.language,
    scraped_at := now }

/-! ## Concrete documents, elements and records used by the theorems -/

/-- A single-element document with no scripts. -/
def docOf (n : Node) : Document :=
  { root := Node.elem "[document]" [] (NodeList.cons n NodeList.nil), scripts := [] }

/-- The JSON object `{"title": "Some Book Title", "price": 15000,
"url": "/p/x"}`. -/
def bigPriceFields : JsonFields :=
  JsonFields.cons "title" (Json.str "Some Book Title")
    (JsonFields.cons "price" (Json.num 15000)
      (JsonFields.cons "url" (Json.str "/p/x") JsonFields.nil))

/-- A search-results document whose one `application/json` script decodes
to the object above (the script text is opaque here: decoding is the
collaborator's concern). -/
def bigPriceDoc : Document :=
  { root := Node.elem "[document]" [] NodeList.nil,
    scripts := [{ typeAttr := some "application/json",
                  content := some "script payload p x",
                  payload := some (Json.obj bigPriceFields) }] }

/-- A card element whose whole text is `5% cashback, 20% Off`. -/
def cashElem : Node :=
  Node.elem "div" [] (NodeList.cons (Node.text "5% cashback, 20% Off") NodeList.nil)

/-- A card element whose whole text is `20% Off`. -/
def plainElem : Node :=
  Node.elem "div" [] (NodeList.cons (Node.text "20% Off") NodeList.nil)

/-- Product X at price 10. -/
def x10 : Product :=
  { title := "Book X", price := 10, product_url := "https://www.noon.com/p/x" }

/-- Product X at price 20 (same identity URL as `x10`). -/
def x20 : Product :=
  { title := "Book X", price := 20, product_url := "https://www.noon.com/p/x" }

/-- The candidate `{title: "Foo Bar Baz", price: absent,
product_url: "/p/1"}` as a card element: a titled child, a relative link,
and no price text anywhere. -/
def fooBarElem : Node :=
  Node.elem "div" [("class", "product")]
    (NodeList.cons
      (Node.elem "span" [("class", "title")]
        (NodeList.cons (Node.text "Foo Bar Baz") NodeList.nil))
      (NodeList.cons
        (Node.elem "a" [("href", "/p/1")]
          (NodeList.cons (Node.text "View") NodeList.nil))
        NodeList.nil))

/-- A complete card: title, price text `AED 45.99`, and a relative link. -/
def cardElem : Node :=
  Node.elem "div" [("class", "product")]
    (NodeList.cons
      (Node.elem "span" [("class", "title")]
        (NodeList.cons (Node.text "A Nice Book Title") NodeList.nil))
      (NodeList.cons
        (Node.elem "span" [("class", "price")]
          (NodeList.cons (Node.text "AED 45.99") NodeList.nil))
        (NodeList.cons
          (Node.elem "a" [("href", "/p/2")]
            (NodeList.cons (Node.text "View") NodeList.nil))
          NodeList.nil)))

/-- A detail page whose text is `#1234 in Books > Literature & Fiction`. -/
def doc1234 : Document :=
  docOf (Node.elem "div" []
    (NodeList.cons (Node.text "#1234 in Books > Literature & Fiction") NodeList.nil))

/-- A detail page whose text is `7 in of`. -/
def doc7of : Document :=
  docOf (Node.elem "div" [] (NodeList.cons (Node.text "7 in of") NodeList.nil))

/-- A detail page with a rank-labelled element whose text is `7 in and`. -/
def doc7and : Document :=
  docOf (Node.elem "span" [("class", "rank")]
    (NodeList.cons (Node.text "7 in and") NodeList.nil))

/-- The baseline Product for the enrichment examples. -/
def gatsby : Product :=
  { title := "The Great Gatsby", price := 30,
    product_url := "https://www.noon.com/p/gatsby" }

/-- A detail candidate whose only field is the breadcrumb-like title
`Fiction & Literature`. -/
def fictionDetail : DetailData :=
  { title := some "Fiction & Literature" }

/-- A detail candidate with every field absent. -/
def emptyDetail : DetailData := {}

/-! ## Specification-side definitions

`firstSeen` renders the spec's dedup policy ("for each normalized URL keep
exactly the first Product carrying it and drop every later one") as a
direct recursion, to be compared with the implementation's
`removeDuplicates`. -/

/-- The spec's first-seen-wins policy: keep the head, drop every later
product with the same URL, recurse. -/
def firstSeen : List Product → List Product
  | [] => []
  | p :: rest => p :: firstSeen (rest.filter (fun q => q.product_url ≠ p.product_url))
termination_by ps => ps.length
decreasing_by
  simp only [List.length_cons]
  exact Nat.lt_succ_of_le (List.length_filter_le _ _)

/-- The Product that `cardElem` extracts to (used by the C1 witness). -/
def cardProduct : Product :=
  { title := "A Nice Book Title", price := mkRat 4599 100,
    product_url := "https://www.noon.com/p/2", scraped_at := 7 }

/-! # Theorems

First the shared lemmas about the embedded operations, then one theorem
per claim of the specification review (with counterexamples and witnesses
where the claim status needs them). -/

/-- Every price `_parse_price` returns lies in `[1, 10000]`. -/
theorem parsePrice_bounds {s : String} {q : ℚ} (h : parsePrice s = some q) :
    1 ≤ q ∧ q ≤ 10000 := by
  unfold parsePrice at h
  split at h
  · exact absurd h (by simp)
  · split at h
    · split at h
      · rename_i hcond
        cases h
        exact hcond
      · split at h
        · split at h
          · rename_i hcond
            cases h
            exact hcond
          · exact absurd h (by simp)
        · exact absurd h (by simp)
    · split at h
      · split at h
        · rename_i hcond
          cases h
          exact hcond
        · exact absurd h (by simp)
      · exact absurd h (by simp)

/-- A decimal match of the first price pattern that lies in `[1, 10000]`
is returned by `_parse_price` as is. -/
theorem parsePrice_accepts {s : String} {q : ℚ}
    (h : searchDecimal (commaFix s) = some q) (h1 : 1 ≤ q) (h2 : q ≤ 10000) :
    parsePrice s = some q := by
  unfold parsePrice
  split
  · rename_i hs
    rw [hs] at h
    rw [show commaFix "" = [] from by decide] at h
    simp [searchDecimal] at h
  · rw [h]
    simp [h1, h2]

/-- The selector loop of `_find_price` only returns `_parse_price`
values. -/
theorem findPriceLoop_bounds {e : Node} {cs : List CSel} {q : ℚ}
    (h : findPriceLoop e cs = some q) : 1 ≤ q ∧ q ≤ 10000 := by
  induction cs with
  | nil => simp [findPriceLoop] at h
  | cons c rest ih =>
    unfold findPriceLoop at h
    split at h
    · split at h
      · rename_i hp
        cases h
        exact parsePrice_bounds hp
      · exact ih h
    · exact ih h

/-- Every price `_find_price` returns lies in `[1, 10000]`. -/
theorem findPriceE_bounds {e : Node} {q : ℚ}
    (h : findPriceE e = some q) : 1 ≤ q ∧ q ≤ 10000 := by
  unfold findPriceE at h
  split at h
  · rename_i hp
    cases h
    exact findPriceLoop_bounds hp
  · exact parsePrice_bounds h

/-- Every product the HTML card path promotes has a `_find_price` price. -/
theorem extractProductInfo_price_bounds {t0 : Nat} {e : Node} {p : Product}
    (h : extractProductInfo t0 e = some p) : 1 ≤ p.price ∧ p.price ≤ 10000 := by
  unfold extractProductInfo at h
  split at h
  · exact absurd h (by simp)
  · split at h
    · exact absurd h (by simp)
    · rename_i price hp
      split at h
      · exact absurd h (by simp)
      · cases h
        exact findPriceE_bounds hp

/-- A JSON product whose raw price is a string goes through
`_parse_price`, hence its price lies in `[1, 10000]`. -/
theorem jsonToProduct_strPrice_bounds {t0 : Nat} {d : JsonFields} {p : Product}
    {s : String}
    (hraw : jsonPriceRaw d = some (Json.str s)) (h : jsonToProduct t0 d = some p) :
    1 ≤ p.price ∧ p.price ≤ 10000 := by
  unfold jsonToProduct at h
  split at h
  · exact absurd h (by simp)
  · split at h
    · exact absurd h (by simp)
    · rename_i price hp
      split at h
      · exact absurd h (by simp)
      · split at h
        · exact absurd h (by simp)
        · cases h
          unfold extractPriceJ at hp
          rw [hraw] at hp
          exact parsePrice_bounds hp

/-- A JSON product whose raw price is a number carries that number as its
price, unchecked. -/
theorem jsonToProduct_numPrice {t0 : Nat} {d : JsonFields} {p : Product} {n : Int}
    (hraw : jsonPriceRaw d = some (Json.num n)) (h : jsonToProduct t0 d = some p) :
    p.price = (n : ℚ) := by
  unfold jsonToProduct at h
  split at h
  · exact absurd h (by simp)
  · split at h
    · exact absurd h (by simp)
    · rename_i price hp
      split at h
      · exact absurd h (by simp)
      · split at h
        · exact absurd h (by simp)
        · cases h
          unfold extractPriceJ at hp
          rw [hraw] at hp
          cases hp
          rfl

/-- No title on an HTML card: no product. -/
theorem gateTitleHtml (t0 : Nat) (e : Node) (h : findTextPrecise e titleSelectors = none) :
    extractProductInfo t0 e = none := by
  unfold extractProductInfo
  rw [h]

/-- No price on an HTML card: no product. -/
theorem gatePriceHtml (t0 : Nat) (e : Node) (h : findPriceE e = none) :
    extractProductInfo t0 e = none := by
  unfold extractProductInfo
  split
  · rfl
  · rw [h]

/-- No URL on an HTML card: no product. -/
theorem gateUrlHtml (t0 : Nat) (e : Node) (h : findUrl e = none) :
    extractProductInfo t0 e = none := by
  unfold extractProductInfo
  split
  · rfl
  · split
    · rfl
    · rw [h]

/-- No title in a JSON candidate: no product. -/
theorem gateTitleJson (t0 : Nat) (d : JsonFields) (h : jsonTitle d = none) :
    jsonToProduct t0 d = none := by
  unfold jsonToProduct
  rw [h]

/-- No accepted price in a JSON candidate: no product. -/
theorem gatePriceJson (t0 : Nat) (d : JsonFields) (h : extractPriceJ d = none) :
    jsonToProduct t0 d = none := by
  unfold jsonToProduct
  split
  · rfl
  · rw [h]

/-- No URL in a JSON candidate: no product. -/
theorem gateUrlJson (t0 : Nat) (d : JsonFields) (h : extractUrlJ d = none) :
    jsonToProduct t0 d = none := by
  unfold jsonToProduct
  split
  · rfl
  · split
    · rfl
    · rw [h]

/-- A JSON candidate whose raw price is a string the normalizer rejects:
no product (the surviving fragment of "normalizer-accepted" on the JSON
path — numeric prices bypass the normalizer, see `jsonToProduct_numPrice`). -/
theorem gateStrPriceJson (t0 : Nat) (d : JsonFields) (s : String)
    (hraw : jsonPriceRaw d = some (Json.str s)) (hp : parsePrice s = none) :
    jsonToProduct t0 d = none := by
  apply gatePriceJson
  unfold extractPriceJ
  rw [hraw]
  exact hp

/-- The dedup loop, relative to an arbitrary seen-set, is the spec's
first-seen recursion on the not-yet-seen products. -/
theorem removeDuplicatesAux_eq_firstSeen (ps : List Product) : ∀ seen : List String,
    removeDuplicatesAux seen ps
      = firstSeen (ps.filter (fun p => p.product_url ∉ seen)) := by
  induction ps with
  | nil => intro seen; simp [removeDuplicatesAux, firstSeen]
  | cons p rest ih =>
    intro seen
    by_cases hmem : p.product_url ∈ seen
    · simp only [removeDuplicatesAux, if_pos hmem, List.filter_cons,
        decide_eq_true_eq]
      rw [if_neg (by simp [hmem])]
      exact ih seen
    · simp only [removeDuplicatesAux, if_neg hmem, List.filter_cons]
      rw [if_pos (by simp [hmem])]
      rw [firstSeen]
      congr 1
      rw [ih (p.product_url :: seen), List.filter_filter]
      refine congrArg firstSeen (List.filter_congr ?_)
      intro q _
      by_cases h1 : q.product_url = p.product_url <;> by_cases h2 : q.product_url ∈ seen <;>
        simp [h1, h2]

/-- Every product the dedup loop keeps has a URL outside the seen-set. -/
theorem removeDuplicatesAux_notin_seen (ps : List Product) : ∀ (seen : List String)
    (p : Product), p ∈ removeDuplicatesAux seen ps → p.product_url ∉ seen := by
  induction ps with
  | nil => intro seen p hp; simp [removeDuplicatesAux] at hp
  | cons q rest ih =>
    intro seen p hp
    unfold removeDuplicatesAux at hp
    split at hp
    · exact ih seen p hp
    · rename_i hq
      rcases List.mem_cons.mp hp with h | h
      · subst h; exact hq
      · intro hmem
        exact (ih (q.product_url :: seen) p h) (List.mem_cons_of_mem _ hmem)

/-- The dedup loop's output has pairwise-distinct URLs. -/
theorem removeDuplicatesAux_urls_nodup (ps : List Product) : ∀ seen : List String,
    ((removeDuplicatesAux seen ps).map Product.product_url).Nodup := by
  induction ps with
  | nil => intro seen; simp [removeDuplicatesAux]
  | cons q rest ih =>
    intro seen
    unfold removeDuplicatesAux
    split
    · exact ih seen
    · simp only [List.map_cons, List.nodup_cons]
      refine ⟨?_, ih (q.product_url :: seen)⟩
      intro hmem
      rcases List.mem_map.mp hmem with ⟨r, hr, hurl⟩
      exact (removeDuplicatesAux_notin_seen rest _ r hr) (by simp [hurl])

/-- On a list whose URLs are fresh and pairwise distinct, the dedup loop
is the identity. -/
theorem removeDuplicatesAux_id (ps : List Product) : ∀ seen : List String,
    (∀ p ∈ ps, p.product_url ∉ seen) → ((ps.map Product.product_url).Nodup) →
    removeDuplicatesAux seen ps = ps := by
  induction ps with
  | nil => intro seen _ _; rfl
  | cons q rest ih =>
    intro seen hseen hnodup
    unfold removeDuplicatesAux
    rw [if_neg (hseen q (List.mem_cons_self q rest))]
    congr 1
    simp only [List.map_cons, List.nodup_cons] at hnodup
    refine ih (q.product_url :: seen) ?_ hnodup.2
    intro p hp
    simp only [List.mem_cons]
    rintro (h | h)
    · exact hnodup.1 (List.mem_map.mpr ⟨p, hp, h⟩)
    · exact hseen p (List.mem_cons_of_mem _ hp) h

/-- `_remove_duplicates` is idempotent. -/
theorem removeDuplicates_idem (ps : List Product) :
    removeDuplicates (removeDuplicates ps) = removeDuplicates ps := by
  unfold removeDuplicates
  exact removeDuplicatesAux_id _ [] (by intro p _; simp)
    (removeDuplicatesAux_urls_nodup ps [])

/-- `_json_to_product` with a different timestamp constant: the same
products, retimed. -/
theorem jsonToProduct_retime (t : Nat) (d : JsonFields) :
    jsonToProduct t d = (jsonToProduct 0 d).map (retime t) := by
  cases h1 : jsonTitle d <;> cases h2 : extractPriceJ d <;>
    cases h3 : extractUrlJ d <;> cases h4 : jsonOptFields d <;>
      simp [jsonToProduct, h1, h2, h3, h4, retime]

mutual
/-- JSON mining with a different timestamp constant: the same products,
retimed. -/
theorem findProductsInJson_retime (t : Nat) : (j : Json) →
    findProductsInJson t j = (findProductsInJson 0 j).map (retime t)
  | Json.null => by simp [findProductsInJson]
  | Json.bool b => by simp [findProductsInJson]
  | Json.num n => by simp [findProductsInJson]
  | Json.fnum q => by simp [findProductsInJson]
  | Json.str s => by simp [findProductsInJson]
  | Json.arr items => by
    simpa [findProductsInJson] using findProductsInJsonList_retime t items
  | Json.obj flds => by
    simp only [findProductsInJson, List.map_append]
    rw [findProductsInJsonFields_retime t flds, jsonToProduct_retime t flds]
    by_cases hl : looksLikeProduct flds <;>
      cases h : jsonToProduct 0 flds <;> simp [hl, h]
/-- The list case of `findProductsInJson_retime`. -/
theorem findProductsInJsonList_retime (t : Nat) : (l : JsonList) →
    findProductsInJsonList t l = (findProductsInJsonList 0 l).map (retime t)
  | JsonList.nil => by simp [findProductsInJsonList]
  | JsonList.cons j rest => by
    simp only [findProductsInJsonList, List.map_append]
    rw [findProductsInJson_retime t j, findProductsInJsonList_retime t rest]
/-- The fields case of `findProductsInJson_retime`. -/
theorem findProductsInJsonFields_retime (t : Nat) : (l : JsonFields) →
    findProductsInJsonFields t l = (findProductsInJsonFields 0 l).map (retime t)
  | JsonFields.nil => by simp [findProductsInJsonFields]
  | JsonFields.cons k v rest => by
    simp only [findProductsInJsonFields, List.map_append]
    rw [findProductsInJson_retime t v, findProductsInJsonFields_retime t rest]
end

/-- Card extraction with a different timestamp constant: the same result,
retimed. -/
theorem extractProductInfo_retime (t : Nat) (e : Node) :
    extractProductInfo t e = (extractProductInfo 0 e).map (retime t) := by
  cases h1 : findTextPrecise e titleSelectors <;>
    cases h2 : findPriceE e <;>
      cases h3 : findUrl e <;>
        simp [extractProductInfo, h1, h2, h3, retime]

/-- The HTML pass with a different timestamp constant: the same products,
retimed. -/
theorem extractFromHtml_retime (t : Nat) (root : Node) :
    extractFromHtml t root = (extractFromHtml 0 root).map (retime t) := by
  unfold extractFromHtml
  induction firstNonemptySel root cardSelectors with
  | nil => rfl
  | cons e rest ih =>
    simp only [List.foldr_cons]
    rw [extractProductInfo_retime t e]
    cases h : extractProductInfo 0 e <;> simp [ih]

/-- One script's products with a different timestamp constant. -/
theorem scriptProducts_retime (t : Nat) (sc : Script) :
    scriptProducts t sc = (scriptProducts 0 sc).map (retime t) := by
  unfold scriptProducts
  cases hc : sc.content with
  | none => cases hp : sc.payload <;> rfl
  | some s =>
    cases hp : sc.payload with
    | none => rfl
    | some j => by_cases hs : s = "" <;> simp [hs, findProductsInJson_retime t j]

/-- The JSON pass with a different timestamp constant. -/
theorem extractFromJson_retime (t : Nat) (scripts : List Script) :
    extractFromJson t scripts = (extractFromJson 0 scripts).map (retime t) := by
  unfold extractFromJson
  induction (scripts.filter (fun sc => sc.typeAttr = some ("application/json"))
      ++ scripts.filter scriptRegexHit) with
  | nil => rfl
  | cons sc rest ih =>
    simp only [List.foldr_cons]
    rw [scriptProducts_retime t sc, ih, List.map_append]

/-- Retiming commutes with the dedup loop (it never reads `scraped_at`). -/
theorem removeDuplicatesAux_map_retime (t : Nat) (ps : List Product) :
    ∀ seen : List String,
    removeDuplicatesAux seen (ps.map (retime t))
      = (removeDuplicatesAux seen ps).map (retime t) := by
  induction ps with
  | nil => intro seen; rfl
  | cons p rest ih =>
    intro seen
    simp only [List.map_cons, removeDuplicatesAux]
    by_cases h : p.product_url ∈ seen <;> simp [retime, h, ih]

/-- `parse_search_results` with a different timestamp constant: the same
products, retimed. -/
theorem parseSearchResults_retime (t : Nat) (doc : Document) :
    parseSearchResults t doc = (parseSearchResults 0 doc).map (retime t) := by
  unfold parseSearchResults removeDuplicates
  rw [extractFromJson_retime, extractFromHtml_retime, ← List.map_append,
    removeDuplicatesAux_map_retime]

/-- Strategy-1 validation implies the rank bound. -/
theorem bsrOk1_bounds {m : Int × String} (h : bsrOk1 m = true) :
    1 ≤ m.1 ∧ m.1 ≤ 10000000 := by
  unfold bsrOk1 at h
  simp only [Bool.and_eq_true, decide_eq_true_eq] at h
  exact ⟨h.1.1, h.1.2⟩

/-- Strategy 1's pattern loop only accepts bounded ranks. -/
theorem strat1Text_bound {cs : List Char}
    {ps : List (List Char → Option (Int × String × List Char))}
    {r : Int} {c : String}
    (h : strat1Text cs ps = some (r, c)) : 1 ≤ r ∧ r ≤ 10000000 := by
  induction ps with
  | nil => simp [strat1Text] at h
  | cons p rest ih =>
    unfold strat1Text at h
    split at h
    · split at h
      · rename_i hok
        cases h
        exact bsrOk1_bounds hok
      · exact ih h
    · exact ih h

/-- Strategy 1's element loop only accepts bounded ranks. -/
theorem strat1Elems_bound {es : List Node} {r : Int} {c : String}
    (h : strat1Elems es = some (r, c)) : 1 ≤ r ∧ r ≤ 10000000 := by
  induction es with
  | nil => simp [strat1Elems] at h
  | cons e rest ih =>
    unfold strat1Elems at h
    split at h
    · rename_i hm
      cases h
      exact strat1Text_bound hm
    · exact ih h

/-- Strategy 1 only accepts bounded ranks. -/
theorem strat1Sels_bound {root : Node} {cs : List CSel} {r : Int} {c : String}
    (h : strat1Sels root cs = some (r, c)) : 1 ≤ r ∧ r ≤ 10000000 := by
  induction cs with
  | nil => simp [strat1Sels] at h
  | cons c1 rest ih =>
    unfold strat1Sels at h
    split at h
    · rename_i hm
      cases h
      exact strat1Elems_bound hm
    · exact ih h

/-- Strategy 2 only accepts bounded ranks. -/
theorem strat2Pats_bound {cs : List Char}
    {ps : List (List Char → Option (Int × String × List Char))}
    {r : Int} {c : String}
    (h : strat2Pats cs ps = some (r, c)) : 1 ≤ r ∧ r ≤ 10000000 := by
  induction ps with
  | nil => simp [strat2Pats] at h
  | cons p rest ih =>
    unfold strat2Pats at h
    split at h
    · rename_i hm
      cases h
      have hok := List.find?_some hm
      unfold bsrOk2 at hok
      simp only [Bool.and_eq_true] at hok
      exact bsrOk1_bounds hok.1
    · exact ih h

/-- The key loop of strategy 3 only accepts bounded ranks. -/
theorem bsrKeysLoop_bound {d : JsonFields} {ks : List String} {r : Int} {c : Json}
    (h : bsrKeysLoop d ks = some (r, c)) : 1 ≤ r ∧ r ≤ 10000000 := by
  induction ks with
  | nil => simp [bsrKeysLoop] at h
  | cons k rest ih =>
    unfold bsrKeysLoop at h
    split at h
    · split at h
      · split at h
        · split at h
          · split at h
            · rename_i hcond
              cases h
              exact hcond
            · exact ih h
          · exact ih h
        · exact ih h
      · exact ih h
    · exact ih h

mutual
/-- `_find_bsr_in_json` only accepts bounded ranks. -/
theorem findBsrInJson_bound : (j : Json) → ∀ (r : Int) (c : Json),
    findBsrInJson j = some (r, c) → 1 ≤ r ∧ r ≤ 10000000
  | Json.null => by intro r c h; simp [findBsrInJson] at h
  | Json.bool b => by intro r c h; simp [findBsrInJson] at h
  | Json.num n => by intro r c h; simp [findBsrInJson] at h
  | Json.fnum q => by intro r c h; simp [findBsrInJson] at h
  | Json.str s => by intro r c h; simp [findBsrInJson] at h
  | Json.arr items => by
    intro r c h
    simp only [findBsrInJson] at h
    exact findBsrInJsonList_bound items _ _ h
  | Json.obj flds => by
    intro r c h
    simp only [findBsrInJson] at h
    split at h
    · rename_i hk
      cases h
      exact bsrKeysLoop_bound hk
    · exact findBsrInJsonFields_bound flds _ _ h
/-- The fields case of `findBsrInJson_bound`. -/
theorem findBsrInJsonFields_bound : (l : JsonFields) → ∀ (r : Int) (c : Json),
    findBsrInJsonFields l = some (r, c) → 1 ≤ r ∧ r ≤ 10000000
  | JsonFields.nil => by intro r c h; simp [findBsrInJsonFields] at h
  | JsonFields.cons k v rest => by
    intro r c h
    simp only [findBsrInJsonFields] at h
    split at h
    · rename_i hm
      cases h
      exact findBsrInJson_bound v _ _ hm
    · exact findBsrInJsonFields_bound rest _ _ h
/-- The list case of `findBsrInJson_bound`. -/
theorem findBsrInJsonList_bound : (l : JsonList) → ∀ (r : Int) (c : Json),
    findBsrInJsonList l = some (r, c) → 1 ≤ r ∧ r ≤ 10000000
  | JsonList.nil => by intro r c h; simp [findBsrInJsonList] at h
  | JsonList.cons j rest => by
    intro r c h
    simp only [findBsrInJsonList] at h
    split at h
    · rename_i hm
      cases h
      exact findBsrInJson_bound j _ _ hm
    · exact findBsrInJsonList_bound rest _ _ h
end

/-- Strategy 3 only accepts bounded ranks. -/
theorem strat3_bound {scripts : List Script} {r : Int} {c : Json}
    (h : strat3 scripts = some (r, c)) : 1 ≤ r ∧ r ≤ 10000000 := by
  induction scripts with
  | nil => simp [strat3] at h
  | cons sc rest ih =>
    unfold strat3 at h
    split at h
    · split at h
      · split at h
        · split at h
          · rename_i hm
            cases h
            exact findBsrInJson_bound _ _ _ hm
          · exact ih h
        · exact ih h
      · exact ih h
    · exact ih h

/-- `_find_bsr` only accepts ranks in `[1, 10000000]`, in every
strategy. -/
theorem findBsr_bound {doc : Document} {r : Int} {c : Json}
    (h : findBsr doc = some (r, c)) : 1 ≤ r ∧ r ≤ 10000000 := by
  unfold findBsr at h
  split at h
  · rename_i hm
    cases h
    exact strat1Sels_bound hm
  · split at h
    · rename_i hm
      cases h
      exact strat2Pats_bound hm
    · exact strat3_bound h

/-! ## Claim theorems -/

/-- Claim C1 (corrected).  As amended: every Product promoted by the HTML
card path has price in `[1, 10000]` (hence in `(0, 10000]`); on the JSON
mining path the bound holds when the raw price value is a string, while a
numeric JSON price is passed through to the Product unchecked. -/
theorem C1_price_bounds_amended :
    (∀ (t0 : Nat) (e : Node) (p : Product), extractProductInfo t0 e = some p →
      1 ≤ p.price ∧ p.price ≤ 10000) ∧
    (∀ (t0 : Nat) (d : JsonFields) (p : Product) (s : String),
      jsonPriceRaw d = some (Json.str s) → jsonToProduct t0 d = some p →
      1 ≤ p.price ∧ p.price ≤ 10000) ∧
    (∀ (t0 : Nat) (d : JsonFields) (p : Product) (n : Int),
      jsonPriceRaw d = some (Json.num n) → jsonToProduct t0 d = some p →
      p.price = (n : ℚ)) :=
  ⟨fun _ _ _ h => extractProductInfo_price_bounds h,
   fun _ _ _ _ hr h => jsonToProduct_strPrice_bounds hr h,
   fun _ _ _ _ hr h => jsonToProduct_numPrice hr h⟩

/-- Claim C1 counterexample: mining the search document whose one JSON
script holds `{"title": "Some Book Title", "price": 15000, "url": "/p/x"}`
yields one Product, with price 15000 — above the claimed 10000 bound. -/
theorem C1_counterexample :
    (parseSearchResults 0 bigPriceDoc).map Product.price = [((15000 : Int) : ℚ)] ∧
      ¬ (((15000 : Int) : ℚ) ≤ 10000) := by decide

/-- Claim C1 witness: the complete concrete card `cardElem` promotes, and
the amended bound holds at it. -/
theorem C1_witness : 1 ≤ cardProduct.price ∧ cardProduct.price ≤ 10000 :=
  C1_price_bounds_amended.1 7 cardElem cardProduct (by decide)

/-- Claim C5 (corrected).  As amended: `_parse_price` returns a value
exactly when a pattern match lies in `[1, 10000]` (not `(0, 10000]`):
every returned value is in `[1, 10000]`, a first-pattern match in that
range is returned as is, `"15000"` is rejected, and `"AED 45.99"` is
accepted as 45.99. -/
theorem C5_parse_price_amended :
    (∀ (s : String) (q : ℚ), parsePrice s = some q → 1 ≤ q ∧ q ≤ 10000) ∧
    (∀ (s : String) (q : ℚ), searchDecimal (commaFix s) = some q → 1 ≤ q → q ≤ 10000 →
      parsePrice s = some q) ∧
    parsePrice "15000" = none ∧
    parsePrice "AED 45.99" = some (mkRat 4599 100) :=
  ⟨fun _ _ h => parsePrice_bounds h, fun _ _ h h1 h2 => parsePrice_accepts h h1 h2,
   by decide, by decide⟩

/-- Claim C5 counterexample: on `"0.5"` the first pattern parses the value
1/2, which lies in `(0, 10000]`, yet `_parse_price` rejects it — the
acceptance range has lower bound 1, not 0. -/
theorem C5_counterexample :
    searchDecimal (commaFix "0.5") = some (mkRat 1 2) ∧
    (0 : ℚ) < mkRat 1 2 ∧ mkRat 1 2 ≤ 10000 ∧
    parsePrice "0.5" = none := by decide

/-- Claim C5 witness: the amended bound instantiated at `"AED 45.99"`. -/
theorem C5_witness : 1 ≤ mkRat 4599 100 ∧ mkRat 4599 100 ≤ 10000 :=
  C5_parse_price_amended.1 "AED 45.99" (mkRat 4599 100) (by decide)

/-- Claim C2 counterexample: on an element whose text is
`"5% cashback, 20% Off"` the discount extractor returns nothing, not 20 —
"cashback" occurs in the checked window (the text from its start through
50 characters past the match start), so even the genuine `20% Off` match
is rejected. -/
theorem C2_counterexample :
    getTextRaw cashElem = "5% cashback, 20% Off" ∧
    findDiscountImproved cashElem = none := by decide

/-- Claim C2 (corrected).  As amended: for the text
`"5% cashback, 20% Off"` the discount normalizer returns no discount (the
cashback window covers the whole prefix of the text, so the `20% Off`
match is itself rejected); the same text without the cashback prefix,
`"20% Off"`, yields 20. -/
theorem C2_discount_cashback_amended :
    getTextRaw cashElem = "5% cashback, 20% Off" ∧
    findDiscountImproved cashElem ≠ some ((20 : ℚ)) ∧
    getTextRaw plainElem = "20% Off" ∧
    findDiscountImproved plainElem = some ((20 : ℚ)) := by decide

/-- Claim C3 (confirmed): deduplication keeps, for each URL, exactly the
first Product carrying it and drops every later one with no field
merging — `_remove_duplicates` coincides with the spec's first-seen
recursion — and on `[X(price 10), X(price 20)]` it returns exactly
`[X(price 10)]`. -/
theorem C3_dedup_first_wins :
    (∀ ps : List Product, removeDuplicates ps = firstSeen ps) ∧
    removeDuplicates [x10, x20] = [x10] := by
  constructor
  · intro ps
    unfold removeDuplicates
    rw [removeDuplicatesAux_eq_firstSeen]
    congr 1
    simp
  · decide

/-- Claim C10 (confirmed): deduplication is idempotent — applying
`_remove_duplicates` to its own output returns that output unchanged. -/
theorem C10_dedup_idempotent : ∀ ps : List Product,
    removeDuplicates (removeDuplicates ps) = removeDuplicates ps :=
  removeDuplicates_idem

/-- Claim C4 (corrected).  As amended: a candidate lacking a non-empty
title, a resolvable product_url, or a *resolved* price is never promoted,
and the assembler raises no error.  On the HTML path every resolved price
is normalizer-accepted, and on the JSON path a string price the normalizer
rejects blocks promotion; but a numeric JSON price is resolution-accepted
without consulting the normalizer, so "normalizer-accepted price" is not a
promotion requirement there.  The concrete candidate
`{title: "Foo Bar Baz", price: absent, product_url: "/p/1"}` yields zero
Products. -/
theorem C4_gate_rejection :
    (∀ (t0 : Nat) (e : Node), findTextPrecise e titleSelectors = none →
      extractProductInfo t0 e = none) ∧
    (∀ (t0 : Nat) (e : Node), findPriceE e = none → extractProductInfo t0 e = none) ∧
    (∀ (t0 : Nat) (e : Node), findUrl e = none → extractProductInfo t0 e = none) ∧
    (∀ (t0 : Nat) (d : JsonFields), jsonTitle d = none → jsonToProduct t0 d = none) ∧
    (∀ (t0 : Nat) (d : JsonFields), extractPriceJ d = none → jsonToProduct t0 d = none) ∧
    (∀ (t0 : Nat) (d : JsonFields), extractUrlJ d = none → jsonToProduct t0 d = none) ∧
    (∀ (t0 : Nat) (d : JsonFields) (s : String), jsonPriceRaw d = some (Json.str s) →
      parsePrice s = none → jsonToProduct t0 d = none) ∧
    extractProductInfo 0 fooBarElem = none :=
  ⟨gateTitleHtml, gatePriceHtml, gateUrlHtml, gateTitleJson, gatePriceJson,
   gateUrlJson, gateStrPriceJson, by decide⟩

/-- Claim C4 counterexample: the JSON candidate
`{"title": "Some Book Title", "price": 15000, "url": "/p/x"}` lacks a
normalizer-accepted price — `_parse_price` rejects 15000 — yet
`_json_to_product` promotes it to a Product carrying price 15000, so the
claim as stated is false. -/
theorem C4_counterexample :
    jsonPriceRaw bigPriceFields = some (Json.num 15000) ∧
    parsePrice "15000" = none ∧
    (jsonToProduct 0 bigPriceFields).map Product.price = some (((15000 : Int) : ℚ)) := by
  decide

/-- Claim C4 witness: the price gate instantiated at the concrete
price-less candidate. -/
theorem C4_witness : extractProductInfo 3 fooBarElem = none :=
  C4_gate_rejection.2.1 3 fooBarElem (by decide)

/-- Claim C9 (confirmed): two runs of search-results extraction on the
same document (differing only in the per-process timestamp constant)
produce Product lists of equal length that are identical in every field
except `scraped_at`. -/
theorem C9_extraction_deterministic :
    ∀ (doc : Document) (t1 t2 : Nat),
      (parseSearchResults t1 doc).length = (parseSearchResults t2 doc).length ∧
      (parseSearchResults t1 doc).map stripTime
        = (parseSearchResults t2 doc).map stripTime := by
  intro doc t1 t2
  rw [parseSearchResults_retime t1 doc, parseSearchResults_retime t2 doc]
  have hst : ∀ t : Nat, stripTime ∘ retime t = stripTime := fun t => funext (fun p => rfl)
  constructor
  · simp
  · simp only [List.map_map, hst]

/-- Claim C8 (corrected).  As amended: every strategy of `_find_bsr`
enforces the rank bound `1 ≤ N ≤ 10000000`, but only strategy 2 (page
text) applies the stopword test; the examples behave as specified —
`"#1234 in Books > Literature & Fiction"` yields rank 1234 with that
category, and `"7 in of"` yields no BSR. -/
theorem C8_bsr_amended :
    (∀ (doc : Document) (r : Int) (c : Json), findBsr doc = some (r, c) →
      1 ≤ r ∧ r ≤ 10000000) ∧
    findBsr doc1234 = some (1234, Json.str "Books > Literature & Fiction") ∧
    findBsr doc7of = none :=
  ⟨fun _ _ _ h => findBsr_bound h, by decide, by decide⟩

/-- Claim C8 counterexample: a rank-labelled element with text
`"7 in and"` is accepted by strategy 1 with the pure stopword category
`"and"` — the stopword rejection the claim asserts for every strategy is
absent from strategies 1 and 3. -/
theorem C8_counterexample :
    getTextRaw doc7and.root = "7 in and" ∧
    findBsr doc7and = some (7, Json.str "and") ∧
    "and" ∈ bsrStopwords := by
  refine ⟨by decide, by decide, by decide⟩

/-- Claim C8 witness: the rank bound instantiated at the
`"#1234 in ..."` document. -/
theorem C8_witness : 1 ≤ (1234 : Int) ∧ (1234 : Int) ≤ 10000000 :=
  C8_bsr_amended.1 doc1234 1234 (Json.str "Books > Literature & Fiction") (by decide)

/-- Claim C6 (confirmed): enrichment rejects an incoming title (keeping
the baseline) whenever it is shorter than 15 characters, equals a known
category label case-insensitively, or contains an ampersand while shorter
than 30 characters; in particular `"The Great Gatsby"` enriched with
`"Fiction & Literature"` keeps `"The Great Gatsby"`. -/
theorem C6_title_guard :
    (∀ (p : Product) (d : DetailData) (now : Nat) (v : String),
      d.title = some v →
      (v.length < 15 ∨ pyLower v ∈ titleLabels ∨
        (strContains v ("&") = true ∧ v.length < 30)) →
      (enrichProduct p d now).title = p.title) ∧
    (enrichProduct gatsby fictionDetail 9).title = "The Great Gatsby" := by
  constructor
  · intro p d now v hd hguard
    have hkeep : titleKeepsBaseline v = true := by
      unfold titleKeepsBaseline
      rcases hguard with h | h | h
      · simp [h]
      · simp only [Bool.or_eq_true, decide_eq_true_eq]
        exact Or.inl (Or.inr (List.elem_iff.mpr h))
      · simp [h.1, h.2]
    by_cases hv : v = ""
    · simp [enrichProduct, hd, hv]
    · simp [enrichProduct, hd, hv, hkeep]
  · decide

/-- Claim C6 witness: the guard instantiated at the Gatsby example. -/
theorem C6_witness : (enrichProduct gatsby fictionDetail 11).title = gatsby.title :=
  C6_title_guard.1 gatsby fictionDetail 11 "Fiction & Literature" rfl
    (Or.inr (Or.inr (by decide)))

/-- Claim C7 (confirmed): enrichment produces a new Product in which every
field whose incoming value is absent (or the empty string) equals the
baseline's value, fields the detail candidate never carries always keep
the baseline's value, and `scraped_at` is the merge time; the baseline is
only read (the merger is a pure function returning a fresh snapshot). -/
theorem C7_enrichment_frame :
    ∀ (p : Product) (d : DetailData) (now : Nat),
      (enrichProduct p d now).scraped_at = now ∧
      (enrichProduct p d now).product_url = p.product_url ∧
      (enrichProduct p d now).currency = p.currency ∧
      (enrichProduct p d now).image_url = p.image_url ∧
      (enrichProduct p d now).sku = p.sku ∧
      (enrichProduct p d now).discount_percentage = p.discount_percentage ∧
      ((d.title = none ∨ d.title = some "") → (enrichProduct p d now).title = p.title) ∧
      (d.price = none → (enrichProduct p d now).price = p.price) ∧
      ((d.category = none ∨ d.category = some "") →
        (enrichProduct p d now).category = p.category) ∧
      (d.review_count = none → (enrichProduct p d now).review_count = p.review_count) ∧
      (d.average_rating = none →
        (enrichProduct p d now).average_rating = p.average_rating) ∧
      (d.bsr = none → (enrichProduct p d now).bsr = p.bsr) ∧
      ((d.bsr_category = none ∨ d.bsr_category = some "") →
        (enrichProduct p d now).bsr_category = p.bsr_category) ∧
      ((d.availability = none ∨ d.availability = some "") →
        (enrichProduct p d now).availability = p.availability) ∧
      ((d.author = none ∨ d.author = some "") →
        (enrichProduct p d now).author = p.author) ∧
      ((d.format = none ∨ d.format = some "") →
        (enrichProduct p d now).format = p.format) ∧
      ((d.publication_date = none ∨ d.publication_date = some "") →
        (enrichProduct p d now).publication_date = p.publication_date) ∧
      ((d.language = none ∨ d.language = some "") →
        (enrichProduct p d now).language = p.language) := by
  intro p d now
  refine ⟨rfl, rfl, rfl, rfl, rfl, rfl, ?_, ?_, ?_, ?_, ?_, ?_, ?_, ?_, ?_, ?_, ?_, ?_⟩
  · rintro (h | h) <;> simp [enrichProduct, h]
  · intro h; simp [enrichProduct, h]
  · rintro (h | h) <;> simp [enrichProduct, updStr, h]
  · intro h; simp [enrichProduct, updInt, h]
  · intro h; simp [enrichProduct, updRat, h]
  · intro h; simp [enrichProduct, updInt, h]
  · rintro (h | h) <;> simp [enrichProduct, updStr, h]
  · rintro (h | h) <;> simp [enrichProduct, updStr, h]
  · rintro (h | h) <;> simp [enrichProduct, updStr, h]
  · rintro (h | h) <;> simp [enrichProduct, updStr, h]
  · rintro (h | h) <;> simp [enrichProduct, updStr, h]
  · rintro (h | h) <;> simp [enrichProduct, updStr, h]

/-- Claim C7 witness: the frame instantiated at the Gatsby baseline and an
all-absent detail candidate. -/
theorem C7_witness :
    (enrichProduct gatsby emptyDetail 4).scraped_at = 4 ∧
    (enrichProduct gatsby emptyDetail 4).title = gatsby.title ∧
    (enrichProduct gatsby emptyDetail 4).price = gatsby.price :=
  ⟨(C7_enrichment_frame gatsby emptyDetail 4).1,
   (C7_enrichment_frame gatsby emptyDetail 4).2.2.2.2.2.2.1 (Or.inl rfl),
   (C7_enrichment_frame gatsby emptyDetail 4).2.2.2.2.2.2.2.1 rfl⟩
